import Mathlib

/-!
# Verification of the hf-utils-rtos-wrap concurrency primitives

Shallow embedding of the repository's generic concurrency primitives:

* `EventDrivenDataMultiThread<DataType>` (src/include/SignalSemaphore.h,
  second embedded header) — the single-slot timestamped mailbox, modelled
  here as `Channel`;
* `BaseThread` (src/src/BaseThread.cpp, src/include/BaseThread.h) — the
  worker-thread lifecycle, modelled as a per-cycle function over the five
  atomic flags;
* `ErrorSaver` / `FlagsSaver` (src/unnamed/part_004, src/unnamed/part_007)
  — the enumerated status table, modelled as `Saver`.

OS primitives (ThreadX wrappers from src/src/TxUtility.cpp) are modelled by
an environment record `OsEnv` carrying, per call, the success/failure of
each fallible OS operation, the monotonic clock reading
(`GetElapsedTimeMsec`) and the calling thread's identity
(`tx_thread_identify`).  Thread identities are `Nat`; a stored `TX_THREAD*`
is `Option Nat` with `none` standing for the null pointer.
-/

namespace HfUtils

/-- Per-call outcome of the OS-primitive provider and ambient inputs:
`createEventFlagsOk` is the result of `CreateTxEventFlags`, `createMutexOk`
of `CreateTxMutex`, `mutexAcquireOk` of the `MutexGuard` acquisition used by
the savers' `Initialize`, `setEventFlagsOk` of
`tx_event_flags_set(.., TX_OR)` inside `SetTxEventFlags`; `now` is
`GetElapsedTimeMsec()` and `caller` is `tx_thread_identify()`. -/
structure OsEnv where
  createEventFlagsOk : Bool
  createMutexOk : Bool
  mutexAcquireOk : Bool
  setEventFlagsOk : Bool
  now : Nat
  caller : Nat
deriving Repr, DecidableEq

/-- State of one `EventDrivenDataMultiThread<DataType>` object
(SignalSemaphore.h lines 272-289).  The event-flag group is used with the
single bit `DATA_AVAILABLE_FLAG`, modelled as the Boolean
`dataAvailableFlag`. -/
structure Channel (α : Type) where
  initialized : Bool
  mutexCreated : Bool
  eventFlagGroupCreated : Bool
  dataAvailableFlag : Bool
  dataSetterOwnerThread : Option Nat
  dataGetterOwnerThread : Option Nat
  data : α
  dataTimestamp : Nat
deriving Repr, DecidableEq

namespace Channel

variable {α : Type}

/-- `EventDrivenDataMultiThread::Initialize` (SignalSemaphore.h 327-338):
create the event-flag group and the mutex if not created yet, succeed iff
both exist afterwards. -/
def Initialize (env : OsEnv) (ch : Channel α) : Bool × Channel α :=
  let ch := if !ch.eventFlagGroupCreated then
      { ch with eventFlagGroupCreated := env.createEventFlagsOk } else ch
  let ch := if !ch.mutexCreated then
      { ch with mutexCreated := env.createMutexOk } else ch
  (ch.eventFlagGroupCreated && ch.mutexCreated, ch)

/-- `EventDrivenDataMultiThread::EnsureInitialized` (SignalSemaphore.h
255-262): lazy idempotent initialization. -/
def ensureInitialized (env : OsEnv) (ch : Channel α) : Bool × Channel α :=
  if ch.initialized then (true, ch)
  else
    let r := ch.Initialize env
    (r.1, { r.2 with initialized := r.1 })

/-- `SetTxEventFlags(group, DATA_AVAILABLE_FLAG)` (TxUtility.cpp 954-962):
on success the flag bit is set; on failure the group is untouched. -/
def setAvailableFlag (env : OsEnv) (ch : Channel α) : Bool × Channel α :=
  if env.setEventFlagsOk then (true, { ch with dataAvailableFlag := true })
  else (false, ch)

/-- `tx_event_flags_get(group, DATA_AVAILABLE_FLAG, TX_OR_CLEAR, ..)` as it
behaves when no concurrent signaller runs during the bounded wait: the call
succeeds, atomically clearing the bit, iff the bit is already pending;
otherwise the wait expires and the call fails. -/
def takeAvailableFlag (ch : Channel α) : Bool × Channel α :=
  if ch.dataAvailableFlag then (true, { ch with dataAvailableFlag := false })
  else (false, ch)

/-- Result of a data-setting call: `ok` is the returned Boolean, `ch` the
channel afterwards. -/
structure SetResult (α : Type) where
  ok : Bool
  ch : Channel α
deriving Repr

/-- Result of a data-getting call: `out` is what was written to the caller's
`outData` reference (`none` when it was left untouched), `waited` records
whether the bounded `tx_event_flags_get` wait was performed. -/
structure GetResult (α : Type) where
  ok : Bool
  out : Option α
  waited : Bool
  ch : Channel α
deriving Repr

/-- Result of a data-getting call with timestamp out-parameter. -/
structure GetWTResult (α : Type) where
  ok : Bool
  out : Option α
  outTs : Option Nat
  ch : Channel α
deriving Repr

/-- `EventDrivenDataMultiThread::SetData` (SignalSemaphore.h 379-396). -/
def SetData (env : OsEnv) (v : α) (ch : Channel α) : SetResult α :=
  let e := ch.ensureInitialized env
  if e.1 then
    if e.2.dataSetterOwnerThread = none ∨
        e.2.dataSetterOwnerThread = some env.caller then
      let s := setAvailableFlag env
        { e.2 with data := v, dataTimestamp := env.now }
      ⟨s.1, s.2⟩
    else ⟨false, e.2⟩
  else ⟨false, e.2⟩

/-- `EventDrivenDataMultiThread::GetRecentData` (SignalSemaphore.h
473-488). -/
def GetRecentData (env : OsEnv) (ch : Channel α) : GetResult α :=
  let e := ch.ensureInitialized env
  if e.1 then
    if e.2.dataGetterOwnerThread = none ∨
        e.2.dataGetterOwnerThread = some env.caller then
      ⟨true, some e.2.data, false, e.2⟩
    else ⟨false, none, false, e.2⟩
  else ⟨false, none, false, e.2⟩

/-- `EventDrivenDataMultiThread::GetRecentDataWT` (SignalSemaphore.h
500-516). -/
def GetRecentDataWT (env : OsEnv) (ch : Channel α) : GetWTResult α :=
  let e := ch.ensureInitialized env
  if e.1 then
    if e.2.dataGetterOwnerThread = none ∨
        e.2.dataGetterOwnerThread = some env.caller then
      ⟨true, some e.2.data, some e.2.dataTimestamp, e.2⟩
    else ⟨false, none, none, e.2⟩
  else ⟨false, none, none, e.2⟩

/-- `EventDrivenDataMultiThread::GetNewData` (SignalSemaphore.h 413-433):
owner-gated consuming read; on a successful wait it delegates to
`GetRecentData`. -/
def GetNewData (env : OsEnv) (ch : Channel α) : GetResult α :=
  let e := ch.ensureInitialized env
  if e.1 then
    if e.2.dataGetterOwnerThread = none ∨
        e.2.dataGetterOwnerThread = some env.caller then
      let g := e.2.takeAvailableFlag
      if g.1 then
        let r := g.2.GetRecentData env
        { r with waited := true }
      else ⟨false, none, true, g.2⟩
    else ⟨false, none, false, e.2⟩
  else ⟨false, none, false, e.2⟩

/-- `EventDrivenDataMultiThread::GetNewDataWT` (SignalSemaphore.h 445-463):
same structure as `GetNewData`, delegating to `GetRecentDataWT`. -/
def GetNewDataWT (env : OsEnv) (ch : Channel α) : GetWTResult α :=
  let e := ch.ensureInitialized env
  if e.1 then
    if e.2.dataGetterOwnerThread = none ∨
        e.2.dataGetterOwnerThread = some env.caller then
      let g := e.2.takeAvailableFlag
      if g.1 then g.2.GetRecentDataWT env
      else ⟨false, none, none, g.2⟩
    else ⟨false, none, none, e.2⟩
  else ⟨false, none, none, e.2⟩

/-- `EventDrivenDataMultiThread::GetRecentDataIfNewerThanWT`
(SignalSemaphore.h 543-557): snapshot read, then the strict comparison
`tempDataTimestampMsec > timestampMsec`; on the false path the caller's
out-parameters are left untouched. -/
def GetRecentDataIfNewerThanWT (env : OsEnv) (timestampMsec : Nat)
    (ch : Channel α) : GetWTResult α :=
  let r := ch.GetRecentDataWT env
  match r.ok, r.out, r.outTs with
  | true, some d, some ts =>
      if ts > timestampMsec then ⟨true, some d, some ts, r.ch⟩
      else ⟨false, none, none, r.ch⟩
  | _, _, _ => ⟨false, none, none, r.ch⟩

/-- `EventDrivenDataMultiThread::GetRecentDataIfNewerThan`
(SignalSemaphore.h 527-532): delegates to the WT variant, dropping the
timestamp out-parameter. -/
def GetRecentDataIfNewerThan (env : OsEnv) (timestampMsec : Nat)
    (ch : Channel α) : GetResult α :=
  let r := ch.GetRecentDataIfNewerThanWT env timestampMsec
  ⟨r.ok, r.out, false, r.ch⟩

/-- `EventDrivenDataMultiThread::IsRecentDataNewerThanMsec`
(SignalSemaphore.h 564-579). -/
def IsRecentDataNewerThanMsec (env : OsEnv) (timestampMsec : Nat)
    (ch : Channel α) : Bool × Channel α :=
  let e := ch.ensureInitialized env
  if e.1 then
    if e.2.dataGetterOwnerThread = none ∨
        e.2.dataGetterOwnerThread = some env.caller then
      (decide (e.2.dataTimestamp > timestampMsec), e.2)
    else (false, e.2)
  else (false, e.2)

/-- `EventDrivenDataMultiThread::SetSetterOwnerThreadTo` (SignalSemaphore.h
347-355): reject the null pointer, otherwise overwrite the stored owner. -/
def SetSetterOwnerThreadTo (arg : Option Nat) (ch : Channel α) :
    Bool × Channel α :=
  match arg with
  | some t => (true, { ch with dataSetterOwnerThread := some t })
  | none => (false, ch)

/-- `EventDrivenDataMultiThread::SetGettersOwnerThreadTo` (SignalSemaphore.h
364-372). -/
def SetGettersOwnerThreadTo (arg : Option Nat) (ch : Channel α) :
    Bool × Channel α :=
  match arg with
  | some t => (true, { ch with dataGetterOwnerThread := some t })
  | none => (false, ch)

/-- `EventDrivenDataMultiThread::ClearNewDataEvent` (SignalSemaphore.h
586-589): `ClearTxEventFlags(group, ~DATA_AVAILABLE_FLAG)`, i.e.
`tx_event_flags_set(.., TX_AND)` that clears the bit. -/
def ClearNewDataEvent (ch : Channel α) : Bool × Channel α :=
  (true, { ch with dataAvailableFlag := false })

/-- Run a finite sequence of `SetData` calls (each with its own OS
environment), keeping the final channel state. -/
def runSetSeq : List (OsEnv × α) → Channel α → Channel α
  | [], ch => ch
  | (env, v) :: rest, ch => runSetSeq rest (SetData env v ch).ch

/-- Whether every `SetData` call in the sequence returns `true` when run
from `ch`. -/
def allSetsSucceed : List (OsEnv × α) → Channel α → Bool
  | [], _ => true
  | (env, v) :: rest, ch =>
    (SetData env v ch).ok && allSetsSucceed rest (SetData env v ch).ch

/-- The stored timestamps observed after each `SetData` call of the
sequence. -/
def tsTrace : List (OsEnv × α) → Channel α → List Nat
  | [], _ => []
  | (env, v) :: rest, ch =>
    (SetData env v ch).ch.dataTimestamp :: tsTrace rest (SetData env v ch).ch

end Channel

/-! ## BaseThread: the worker-thread lifecycle (BaseThread.cpp / BaseThread.h) -/

/-- The five atomic flags of a `BaseThread` (BaseThread.h 349-353). -/
structure WorkerFlags where
  threadRunning : Bool
  threadStepInDelay : Bool
  setupComplete : Bool
  cleanupComplete : Bool
  stopThreadRequested : Bool
deriving Repr, DecidableEq

/-- Observable events of one `ThreadEntry` cycle: reception of the start
signal (`WaitForStart` returning), and the `Setup()`, `Step()` and
`Cleanup()` hook invocations. -/
inductive ThreadEv where
  | evStart
  | evSetup
  | evStep
  | evCleanup
deriving Repr, DecidableEq

/-- Effects of the overridable hooks (`ResetVariables`, `Setup`, `Step`,
`Cleanup`) on the five flags.  The hooks are pure virtual; a derived class
may call the protected Mark/Clear helpers from inside them, so each hook is
modelled as an arbitrary flag transformer. -/
structure ThreadHooks where
  resetEffect : WorkerFlags → WorkerFlags
  setupEffect : WorkerFlags → WorkerFlags
  stepEffect : WorkerFlags → WorkerFlags
  cleanupEffect : WorkerFlags → WorkerFlags

/-- Hooks that leave all flags as they are. -/
def idHooks : ThreadHooks := ⟨id, id, id, id⟩

/-- The inner step loop of `BaseThread::ThreadEntry` (BaseThread.cpp
252-260): `while(!IsThreadStopRequested()) { Step(); delay }`.
`envStop k` tells whether some other thread has called `Stop()` (which sets
`stopThreadRequested`, BaseThread.cpp 212-220) by the time of the `k`-th
loop-head check.  `fuel` bounds the number of iterations modelled; `none`
means the loop was still running when the fuel ran out. -/
def stepLoop (hooks : ThreadHooks) : Nat → (Nat → Bool) → WorkerFlags →
    Option (List ThreadEv × WorkerFlags)
  | 0, _, _ => none
  | fuel + 1, envStop, fl =>
    let fl := if envStop 0 then { fl with stopThreadRequested := true } else fl
    if fl.stopThreadRequested then some ([], fl)
    else
      let fl := hooks.stepEffect fl
      let fl := { fl with threadStepInDelay := true }
      let fl := { fl with threadStepInDelay := false }
      match stepLoop hooks fuel (fun k => envStop (k + 1)) fl with
      | none => none
      | some (evs, fl') => some (ThreadEv.evStep :: evs, fl')

/-- Prologue of a cycle (BaseThread.cpp 230-241): `ClearThreadRunning`,
`WaitForStart` (blocking), `ResetVariables`, `MarkThreadRunning`,
`ClearThreadStopRequested`, `ClearCleanupComplete`. -/
def cyclePrologue (hooks : ThreadHooks) (fl : WorkerFlags) : WorkerFlags :=
  let fl := { fl with threadRunning := false }
  let fl := hooks.resetEffect fl
  let fl := { fl with threadRunning := true }
  let fl := { fl with stopThreadRequested := false }
  { fl with cleanupComplete := false }

/-- The setup guard (BaseThread.cpp 246-250): run `Setup()` and mark the
flag only when `setupComplete` is not already true. -/
def setupPhase (hooks : ThreadHooks) (fl : WorkerFlags) :
    List ThreadEv × WorkerFlags :=
  if !fl.setupComplete then
    ([ThreadEv.evSetup], { hooks.setupEffect fl with setupComplete := true })
  else ([], fl)

/-- The cleanup guard (BaseThread.cpp 267-271): run `Cleanup()` and mark the
flag only when `cleanupComplete` is not already true. -/
def cleanupPhase (hooks : ThreadHooks) (fl : WorkerFlags) :
    List ThreadEv × WorkerFlags :=
  if !fl.cleanupComplete then
    ([ThreadEv.evCleanup],
      { hooks.cleanupEffect fl with cleanupComplete := true })
  else ([], fl)

/-- One full iteration of the outer `while(true)` of
`BaseThread::ThreadEntry` (BaseThread.cpp 228-275), from one reception of
the start signal to the return to the idle wait: prologue, guarded setup,
step loop until a stop is observed, guarded cleanup, then
`ClearSetupComplete` (line 273). -/
def threadCycle (hooks : ThreadHooks) (envStop : Nat → Bool) (fuel : Nat)
    (fl : WorkerFlags) : Option (List ThreadEv × WorkerFlags) :=
  let fl1 := cyclePrologue hooks fl
  let su := setupPhase hooks fl1
  match stepLoop hooks fuel envStop su.2 with
  | none => none
  | some (evSteps, fl3) =>
    let cl := cleanupPhase hooks fl3
    some (ThreadEv.evStart :: (su.1 ++ evSteps ++ cl.1),
      { cl.2 with setupComplete := false })

/-- `true` iff a stop request has been visible at some loop-head check
`j ≤ k`: either it was already pending when the loop was entered, or the
environment delivered one at a check up to `k`. -/
def stopSeenBy (pending : Bool) (envStop : Nat → Bool) (k : Nat) : Bool :=
  pending || (List.range (k + 1)).any envStop

/-! ### BaseThread::Start and the start semaphore -/

/-- `SignalSemaphore::Signal` (SignalSemaphore.cpp 85-93): lazily ensure the
semaphore exists (`initOk` is the creation outcome when it does not), then
`PutTxSemaphore` — whose result is ignored — and return `true`; return
`false` only when the lazy initialization fails.  Result: (returned Boolean,
semaphore-initialized flag afterwards). -/
def SignalSemaphore.signal (semInitialized initOk : Bool) : Bool × Bool :=
  if semInitialized then (true, true) else (initOk, initOk)

/-- Outcome of `BaseThread::Start`: the returned Boolean, whether the
`StartAction()` hook was invoked, and whether `signalSemaphore.Signal()` was
invoked. -/
structure StartOutcome where
  result : Bool
  actionInvoked : Bool
  signalInvoked : Bool
deriving Repr, DecidableEq

/-- `BaseThread::Start` (BaseThread.cpp 180-204): return `true` at once if
`IsThreadRunning()`; otherwise run `StartAction()` (its result is
`startActionOk`) and, only on its success, return the result of
`signalSemaphore.Signal()`.  Also returns the semaphore-initialized flag
afterwards. -/
def BaseThread.start (threadRunning semInitialized : Bool)
    (startActionOk semInitOk : Bool) : StartOutcome × Bool :=
  if threadRunning then (⟨true, false, false⟩, semInitialized)
  else if startActionOk then
    let s := SignalSemaphore.signal semInitialized semInitOk
    (⟨s.1, true, true⟩, s.2)
  else (⟨false, true, false⟩, semInitialized)

/-! ### BaseThread::IsSuspended -/

/-- The ThreadX thread states distinguished by
`BaseThread::IsSuspended` (BaseThread.cpp 159-178): `TX_SUSPENDED`,
`TX_SEMAPHORE_SUSP`, and every other value of the state word. -/
inductive TxThreadState where
  | suspended
  | semaphoreSusp
  | other
deriving Repr, DecidableEq

/-- `BaseThread::IsSuspended` (BaseThread.cpp 159-178): an uninitialized
thread reports itself suspended without querying the OS; otherwise
`tx_thread_info_get` is consulted (`queryOk` its success, `state` the state
word it reports).  Result: (returned Boolean, whether the OS was
queried). -/
def BaseThread.isSuspended (initialized queryOk : Bool)
    (state : TxThreadState) : Bool × Bool :=
  if initialized then
    (if queryOk then
        decide (state = TxThreadState.suspended ∨
          state = TxThreadState.semaphoreSusp)
      else false, true)
  else (true, false)

/-! ## ErrorSaver / FlagsSaver: the enumerated status table -/

/-- The four per-enum-value states (`ErrorStatus` / `FlagsStatus`:
Unknown, Ignored, Set, Cleared — src/unnamed/part_004 header comment,
lines 31-35). -/
inductive SStatus where
  | unknown
  | ignored
  | set
  | cleared
deriving Repr, DecidableEq

/-- State of one `ErrorSaver<ErrorType,N>` (src/unnamed/part_004 187-202) or
`FlagsSaver<FlagsType,N>` (src/unnamed/part_007, identical layout).  The
`table` field is the `EnumeratedSetStatus` member; `signalCount` is a ghost
counter of successful `SetTxEventFlags` signals, used to state how often a
notification is raised. -/
structure Saver (ε : Type) where
  initialized : Bool
  eventFlagGroupCreated : Bool
  dataAvailableFlag : Bool
  signalCount : Nat
  dataSetterOwnerThread : Option Nat
  dataGetterOwnerThread : Option Nat
  table : ε → SStatus

namespace Saver

variable {ε : Type} [DecidableEq ε]

/-- Modelled from the spec: `EnumeratedSetStatus<E,S,B,N>::IsStatus`
(EnumeratedSetStatus.h is not under src/; the spec describes the tracker as
a "fixed-capacity table mapping enum value → status").  `IsStatus(e, s)`
tells whether the entry for `e` currently holds `s`. -/
def IsStatus (sv : Saver ε) (e : ε) (s : SStatus) : Bool :=
  sv.table e = s

/-- Modelled from the spec: `EnumeratedSetStatus<E,S,B,N>::Set`
(EnumeratedSetStatus.h is not under src/): write status `s` into the table
entry for `e`, leaving every other entry unchanged. -/
def writeStatus (sv : Saver ε) (e : ε) (s : SStatus) : Saver ε :=
  { sv with table := Function.update sv.table e s }

/-- `ErrorSaver::Initialize` (src/unnamed/part_004 252-268; FlagsSaver
identical at part_007 794-811): acquire the mutex via a `MutexGuard` with a
success out-parameter; on success create the event-flag group if not yet
created and succeed iff it exists; on acquisition failure return false. -/
def Initialize (env : OsEnv) (sv : Saver ε) : Bool × Saver ε :=
  if env.mutexAcquireOk then
    let sv := if !sv.eventFlagGroupCreated then
        { sv with eventFlagGroupCreated := env.createEventFlagsOk } else sv
    (sv.eventFlagGroupCreated, sv)
  else (false, sv)

/-- `ErrorSaver::EnsureInitialized` (src/unnamed/part_004 170-177). -/
def ensureInitialized (env : OsEnv) (sv : Saver ε) : Bool × Saver ε :=
  if sv.initialized then (true, sv)
  else
    let r := sv.Initialize env
    (r.1, { r.2 with initialized := r.1 })

/-- `SetTxEventFlags(group, DATA_AVAILABLE_FLAG)` on the saver's group,
with the ghost signal counter incremented on success. -/
def setAvailableFlag (env : OsEnv) (sv : Saver ε) : Bool × Saver ε :=
  if env.setEventFlagsOk then
    (true, { sv with dataAvailableFlag := true,
                     signalCount := sv.signalCount + 1 })
  else (false, sv)

/-- Common body of the status setters `ErrorSaver::SetError` /
`ClearError` / `SetUnknown` / `IgnoreError` (src/unnamed/part_004 347-370,
376-399, ...) and `FlagsSaver::SetFlag` / `ClearFlag` / ... (src/unnamed/
part_007 890-913, ...), which are token-identical up to the `target`
status written: ensure initialization, gate on the setter owner, and only
when the stored status differs from `target` write the table and signal
the "new activity" notification; otherwise return `true` without
signalling. -/
def setStatusTo (env : OsEnv) (target : SStatus) (e : ε) (sv : Saver ε) :
    Bool × Saver ε :=
  let r := sv.ensureInitialized env
  if r.1 then
    if r.2.dataSetterOwnerThread = none ∨
        r.2.dataSetterOwnerThread = some env.caller then
      if !r.2.IsStatus e target then
        (r.2.writeStatus e target).setAvailableFlag env
      else (true, r.2)
    else (false, r.2)
  else (false, r.2)

/-- `ErrorSaver::SetError` (src/unnamed/part_004 347-370); also embeds
`FlagsSaver::SetFlag` (src/unnamed/part_007 890-913). -/
def SetError (env : OsEnv) (e : ε) (sv : Saver ε) : Bool × Saver ε :=
  setStatusTo env SStatus.set e sv

/-- `ErrorSaver::ClearError` (src/unnamed/part_004 376-399); also embeds
`FlagsSaver::ClearFlag` (src/unnamed/part_007 919-...). -/
def ClearError (env : OsEnv) (e : ε) (sv : Saver ε) : Bool × Saver ε :=
  setStatusTo env SStatus.cleared e sv

/-- `ErrorSaver::SetSetterOwnerThreadTo` (src/unnamed/part_004 277-285);
token-identical in FlagsSaver (part_007 820-828) and in
`EventDrivenDataMultiThread`. -/
def SetSetterOwnerThreadTo (arg : Option Nat) (sv : Saver ε) :
    Bool × Saver ε :=
  match arg with
  | some t => (true, { sv with dataSetterOwnerThread := some t })
  | none => (false, sv)

/-- `ErrorSaver::SetGettersOwnerThreadTo` (src/unnamed/part_004 294-302);
token-identical in FlagsSaver (src/unnamed/part_007 837-845). -/
def SetGettersOwnerThreadTo (arg : Option Nat) (sv : Saver ε) :
    Bool × Saver ε :=
  match arg with
  | some t => (true, { sv with dataGetterOwnerThread := some t })
  | none => (false, sv)

/-- `ErrorSaver::GetNewErrorActivity` (src/unnamed/part_004 330-341) /
`FlagsSaver::GetNewFlagsActivity` (part_007 873-884): consume-on-read wait
on the "new activity" notification, modelled as for the channel with no
concurrent signaller during the wait. -/
def GetNewActivity (sv : Saver ε) : Bool × Saver ε :=
  if sv.dataAvailableFlag then (true, { sv with dataAvailableFlag := false })
  else (false, sv)

/-- `ErrorSaver::IsErrorSet` (src/unnamed/part_004 ~478-486): getter-owner
gated read of the table. -/
def IsErrorSet (env : OsEnv) (e : ε) (sv : Saver ε) : Bool × Saver ε :=
  let r := sv.ensureInitialized env
  if r.1 then
    if r.2.dataGetterOwnerThread = none ∨
        r.2.dataGetterOwnerThread = some env.caller then
      (r.2.IsStatus e SStatus.set, r.2)
    else (false, r.2)
  else (false, r.2)

/-- `ErrorSaver::SetAllUnknown` (src/unnamed/part_004 425-441): owner-gated
bulk reset of the table to Unknown, then a single signal. -/
def SetAllUnknown (env : OsEnv) (sv : Saver ε) : Bool × Saver ε :=
  let r := sv.ensureInitialized env
  if r.1 then
    if r.2.dataSetterOwnerThread = none ∨
        r.2.dataSetterOwnerThread = some env.caller then
      setAvailableFlag env { r.2 with table := fun _ => SStatus.unknown }
    else (false, r.2)
  else (false, r.2)

/-- `ErrorSaver::ClearNewDataEvent` (src/unnamed/part_004 537-540):
unconditional AND-clear of the notification bit. -/
def ClearNewDataEvent (sv : Saver ε) : Bool × Saver ε :=
  (true, { sv with dataAvailableFlag := false })

end Saver

/-! ## Public-operation enumerations, for stating invariants over every
modelled public call -/

/-- The public operations of `EventDrivenDataMultiThread` modelled above,
with their arguments. -/
inductive ChannelOp (α : Type) where
  | setData (env : OsEnv) (v : α)
  | getNewData (env : OsEnv)
  | getNewDataWT (env : OsEnv)
  | getRecentData (env : OsEnv)
  | getRecentDataWT (env : OsEnv)
  | getRecentDataIfNewerThan (env : OsEnv) (t : Nat)
  | getRecentDataIfNewerThanWT (env : OsEnv) (t : Nat)
  | isRecentDataNewerThanMsec (env : OsEnv) (t : Nat)
  | setGettersOwnerThreadTo (arg : Option Nat)
  | setSetterOwnerThreadTo (arg : Option Nat)
  | clearNewDataEvent

/-- The channel state after one public call. -/
def applyChannelOp {α : Type} : ChannelOp α → Channel α → Channel α
  | .setData env v, ch => (Channel.SetData env v ch).ch
  | .getNewData env, ch => (Channel.GetNewData env ch).ch
  | .getNewDataWT env, ch => (Channel.GetNewDataWT env ch).ch
  | .getRecentData env, ch => (Channel.GetRecentData env ch).ch
  | .getRecentDataWT env, ch => (Channel.GetRecentDataWT env ch).ch
  | .getRecentDataIfNewerThan env t, ch =>
      (Channel.GetRecentDataIfNewerThan env t ch).ch
  | .getRecentDataIfNewerThanWT env t, ch =>
      (Channel.GetRecentDataIfNewerThanWT env t ch).ch
  | .isRecentDataNewerThanMsec env t, ch =>
      (Channel.IsRecentDataNewerThanMsec env t ch).2
  | .setGettersOwnerThreadTo arg, ch =>
      (Channel.SetGettersOwnerThreadTo arg ch).2
  | .setSetterOwnerThreadTo arg, ch =>
      (Channel.SetSetterOwnerThreadTo arg ch).2
  | .clearNewDataEvent, ch => (Channel.ClearNewDataEvent ch).2

/-- The public operations of `ErrorSaver` / `FlagsSaver` modelled above.
`setStatus target e` stands for the whole `SetError` / `ClearError` /
`SetUnknown` / `IgnoreError` (resp. `SetFlag` / ...) family. -/
inductive SaverOp (ε : Type) where
  | setStatus (env : OsEnv) (target : SStatus) (e : ε)
  | setAllUnknown (env : OsEnv)
  | isErrorSet (env : OsEnv) (e : ε)
  | getNewActivity
  | setGettersOwnerThreadTo (arg : Option Nat)
  | setSetterOwnerThreadTo (arg : Option Nat)
  | clearNewDataEvent

/-- The saver state after one public call. -/
def applySaverOp {ε : Type} [DecidableEq ε] : SaverOp ε → Saver ε → Saver ε
  | .setStatus env target e, sv => (Saver.setStatusTo env target e sv).2
  | .setAllUnknown env, sv => (Saver.SetAllUnknown env sv).2
  | .isErrorSet env e, sv => (Saver.IsErrorSet env e sv).2
  | .getNewActivity, sv => (Saver.GetNewActivity sv).2
  | .setGettersOwnerThreadTo arg, sv =>
      (Saver.SetGettersOwnerThreadTo arg sv).2
  | .setSetterOwnerThreadTo arg, sv =>
      (Saver.SetSetterOwnerThreadTo arg sv).2
  | .clearNewDataEvent, sv => (Saver.ClearNewDataEvent sv).2

/-! ## Helper lemmas -/

namespace Channel

variable {α : Type}

/-- Lazy initialization never touches the payload fields: data, timestamp,
notification bit and the two owner identities survive `EnsureInitialized`
unchanged. -/
theorem ensureInitialized_preserves (env : OsEnv) (ch : Channel α) :
    (ch.ensureInitialized env).2.data = ch.data ∧
    (ch.ensureInitialized env).2.dataTimestamp = ch.dataTimestamp ∧
    (ch.ensureInitialized env).2.dataAvailableFlag = ch.dataAvailableFlag ∧
    (ch.ensureInitialized env).2.dataSetterOwnerThread
      = ch.dataSetterOwnerThread ∧
    (ch.ensureInitialized env).2.dataGetterOwnerThread
      = ch.dataGetterOwnerThread := by
  unfold ensureInitialized Initialize
  dsimp only
  split
  · exact ⟨rfl, rfl, rfl, rfl, rfl⟩
  · split <;> split <;> simp

/-- On an already-initialized channel, `EnsureInitialized` succeeds and is
the identity. -/
theorem ensureInitialized_of_initialized {ch : Channel α} (env : OsEnv)
    (h : ch.initialized = true) : ch.ensureInitialized env = (true, ch) := by
  unfold ensureInitialized
  simp [h]

/-- When `EnsureInitialized` reports success, the channel is initialized
afterwards. -/
theorem ensureInitialized_ok {ch : Channel α} {env : OsEnv}
    (h : (ch.ensureInitialized env).1 = true) :
    (ch.ensureInitialized env).2.initialized = true := by
  unfold ensureInitialized at *
  by_cases hi : ch.initialized
  · simp [hi]
  · simp only [hi] at h ⊢
    simpa [h] using h

end Channel

/-! ## Claim theorems -/

/-- **C2** — `SetData(v)` returns true iff lazy initialization succeeds,
the caller is permitted (no setter owner designated, or the caller is the
owner) and the event-flag signal succeeds; on success it stores `v` and the
current monotonic clock reading as the timestamp and raises the
data-available notification; when the channel fails to initialize or the
caller is not the designated setter owner it returns false with data and
timestamp unchanged. -/
theorem C2_setData_contract {α : Type} (env : OsEnv) (v : α)
    (ch : Channel α) :
    ((Channel.SetData env v ch).ok = true ↔
      ((ch.ensureInitialized env).1 = true ∧
        (ch.dataSetterOwnerThread = none ∨
          ch.dataSetterOwnerThread = some env.caller) ∧
        env.setEventFlagsOk = true)) ∧
    ((Channel.SetData env v ch).ok = true →
      (Channel.SetData env v ch).ch.data = v ∧
      (Channel.SetData env v ch).ch.dataTimestamp = env.now ∧
      (Channel.SetData env v ch).ch.dataAvailableFlag = true) ∧
    (((ch.ensureInitialized env).1 = false ∨
        ∃ o, ch.dataSetterOwnerThread = some o ∧ env.caller ≠ o) →
      (Channel.SetData env v ch).ok = false ∧
      (Channel.SetData env v ch).ch.data = ch.data ∧
      (Channel.SetData env v ch).ch.dataTimestamp = ch.dataTimestamp) := by
  obtain ⟨hd, ht, hf, hs, hg⟩ := Channel.ensureInitialized_preserves env ch
  unfold Channel.SetData Channel.setAvailableFlag
  dsimp only
  by_cases h1 : (ch.ensureInitialized env).1 = true
  · by_cases h2 : ch.dataSetterOwnerThread = none ∨
        ch.dataSetterOwnerThread = some env.caller
    · by_cases h3 : env.setEventFlagsOk = true
      · simp [h1, h2, h3, hs, hd, ht]
        rcases h2 with h2 | h2 <;> simp [h2]
      · simp only [Bool.not_eq_true] at h3
        simp [h1, h2, h3, hs, hd, ht]
        rcases h2 with h2 | h2 <;> simp [h2]
    · simp [h1, h2, hs, hd, ht]
  · simp only [Bool.not_eq_true] at h1
    simp [h1, hs, hd, ht]

/-- After a successful `SetData`, the channel is initialized, the
notification bit is pending, the stored value and timestamp are the ones
just written, and the owner identities are untouched. -/
theorem setData_ok_state {α : Type} {env : OsEnv} {v : α} {ch : Channel α}
    (h : (Channel.SetData env v ch).ok = true) :
    (Channel.SetData env v ch).ch.initialized = true ∧
    (Channel.SetData env v ch).ch.dataAvailableFlag = true ∧
    (Channel.SetData env v ch).ch.data = v ∧
    (Channel.SetData env v ch).ch.dataTimestamp = env.now ∧
    (Channel.SetData env v ch).ch.dataGetterOwnerThread
      = ch.dataGetterOwnerThread ∧
    (Channel.SetData env v ch).ch.dataSetterOwnerThread
      = ch.dataSetterOwnerThread := by
  obtain ⟨hd, ht, hf, hs, hg⟩ := Channel.ensureInitialized_preserves env ch
  unfold Channel.SetData Channel.setAvailableFlag at *
  by_cases h1 : (ch.ensureInitialized env).1 = true
  · have hini := Channel.ensureInitialized_ok h1
    by_cases h2 : (ch.ensureInitialized env).2.dataSetterOwnerThread = none ∨
        (ch.ensureInitialized env).2.dataSetterOwnerThread = some env.caller
    · by_cases h3 : env.setEventFlagsOk = true
      · rw [hs] at h2
        simp [h1, h2, h3, hini, hs, hg]
      · simp only [Bool.not_eq_true] at h3
        simp [h1, h2, h3] at h
    · simp [h1, h2] at h
  · simp only [Bool.not_eq_true] at h1
    simp [h1] at h

/-- **C4** — strict-inequality freshness boundary: on an initialized channel
with a permitted caller, `GetRecentDataIfNewerThanWT(t)` succeeds and
delivers the stored value and timestamp exactly when `t` is strictly below
the stored timestamp, and fails writing nothing to the out-parameters
whenever `t` is at least the stored timestamp (in particular at equality);
`GetRecentDataIfNewerThan` agrees with the WT variant, and
`IsRecentDataNewerThanMsec(t)` returns exactly the same strict
comparison. -/
theorem C4_freshness_strict_boundary {α : Type} (env : OsEnv) (t : Nat)
    (ch : Channel α) (hinit : ch.initialized = true)
    (hperm : ch.dataGetterOwnerThread = none ∨
      ch.dataGetterOwnerThread = some env.caller) :
    ((Channel.GetRecentDataIfNewerThanWT env t ch).ok = true ↔
      t < ch.dataTimestamp) ∧
    ((Channel.GetRecentDataIfNewerThanWT env t ch).ok = true →
      (Channel.GetRecentDataIfNewerThanWT env t ch).out = some ch.data ∧
      (Channel.GetRecentDataIfNewerThanWT env t ch).outTs
        = some ch.dataTimestamp) ∧
    (ch.dataTimestamp ≤ t →
      (Channel.GetRecentDataIfNewerThanWT env t ch).ok = false ∧
      (Channel.GetRecentDataIfNewerThanWT env t ch).out = none ∧
      (Channel.GetRecentDataIfNewerThanWT env t ch).outTs = none) ∧
    ((Channel.GetRecentDataIfNewerThan env t ch).ok
        = (Channel.GetRecentDataIfNewerThanWT env t ch).ok ∧
      (Channel.GetRecentDataIfNewerThan env t ch).out
        = (Channel.GetRecentDataIfNewerThanWT env t ch).out) ∧
    ((Channel.IsRecentDataNewerThanMsec env t ch).1 = true ↔
      t < ch.dataTimestamp) := by
  have he := Channel.ensureInitialized_of_initialized env hinit
  unfold Channel.GetRecentDataIfNewerThan Channel.GetRecentDataIfNewerThanWT
    Channel.GetRecentDataWT Channel.IsRecentDataNewerThanMsec
  by_cases hlt : t < ch.dataTimestamp
  · simp [he, hperm, hlt]
  · simp [he, hperm, hlt]

/-- **C7** — non-owner reads fail immediately and atomically: with a
designated getter owner and a different calling thread, `GetNewData` (and
`GetNewDataWT`) returns false without performing the bounded wait, writes
nothing to the out-parameter, and leaves data, timestamp and the pending
notification exactly as they were. -/
theorem C7_nonowner_read_rejected {α : Type} (env : OsEnv) (ch : Channel α)
    (o : Nat) (hown : ch.dataGetterOwnerThread = some o)
    (hne : env.caller ≠ o) :
    ((Channel.GetNewData env ch).ok = false ∧
      (Channel.GetNewData env ch).out = none ∧
      (Channel.GetNewData env ch).waited = false ∧
      (Channel.GetNewData env ch).ch.data = ch.data ∧
      (Channel.GetNewData env ch).ch.dataTimestamp = ch.dataTimestamp ∧
      (Channel.GetNewData env ch).ch.dataAvailableFlag
        = ch.dataAvailableFlag) ∧
    ((Channel.GetNewDataWT env ch).ok = false ∧
      (Channel.GetNewDataWT env ch).out = none ∧
      (Channel.GetNewDataWT env ch).ch.data = ch.data ∧
      (Channel.GetNewDataWT env ch).ch.dataTimestamp = ch.dataTimestamp ∧
      (Channel.GetNewDataWT env ch).ch.dataAvailableFlag
        = ch.dataAvailableFlag) := by
  obtain ⟨hd, ht, hf, hs, hg⟩ := Channel.ensureInitialized_preserves env ch
  have hne' : o ≠ env.caller := fun hcontra => hne hcontra.symm
  unfold Channel.GetNewData Channel.GetNewDataWT
  by_cases h1 : (ch.ensureInitialized env).1 = true
  · simp [h1, hg, hown, hne', hd, ht, hf]
  · simp only [Bool.not_eq_true] at h1
    simp [h1, hd, ht, hf]

/-- **C3** — pulse (consume-on-read) semantics: after exactly one
successful `SetData`, the first `GetNewData` by a permitted caller succeeds
with the stored value, atomically clearing the pending notification, and a
second `GetNewData` with no intervening `SetData` performs the bounded wait,
finds no notification, and returns false. -/
theorem C3_getNewData_pulse {α : Type} (env0 env1 env2 : OsEnv) (v : α)
    (ch0 : Channel α) (hset : (Channel.SetData env0 v ch0).ok = true)
    (hperm1 : ch0.dataGetterOwnerThread = none ∨
      ch0.dataGetterOwnerThread = some env1.caller)
    (hperm2 : ch0.dataGetterOwnerThread = none ∨
      ch0.dataGetterOwnerThread = some env2.caller) :
    (Channel.GetNewData env1 (Channel.SetData env0 v ch0).ch).ok = true ∧
    (Channel.GetNewData env1 (Channel.SetData env0 v ch0).ch).out = some v ∧
    (Channel.GetNewData env1 (Channel.SetData env0 v ch0).ch).ch.dataAvailableFlag
      = false ∧
    (Channel.GetNewData env2
        (Channel.GetNewData env1 (Channel.SetData env0 v ch0).ch).ch).ok
      = false ∧
    (Channel.GetNewData env2
        (Channel.GetNewData env1 (Channel.SetData env0 v ch0).ch).ch).waited
      = true ∧
    (Channel.GetNewData env2
        (Channel.GetNewData env1 (Channel.SetData env0 v ch0).ch).ch).out
      = none := by
  obtain ⟨hi, hfl, hdv, -, hgo, -⟩ := setData_ok_state hset
  unfold Channel.GetNewData Channel.GetRecentData Channel.takeAvailableFlag
  rw [Channel.ensureInitialized_of_initialized env1 hi]
  simp [Channel.ensureInitialized_of_initialized, hgo, hperm1, hperm2, hfl,
    hdv, hi]

/-- **C6** — `Start()` semantics: when the running flag is already set,
`Start()` returns true without invoking the `StartAction()` hook and without
signalling the start semaphore; otherwise it invokes the hook and signals
the semaphore only if the hook returned true, returning the signal's result
(`Signal()` fails exactly when the semaphore's lazy initialization fails);
it returns false whenever the hook fails — sending no signal — or the
signal fails. -/
theorem C6_start_semantics (running semInit actionOk semCreateOk : Bool) :
    (running = true →
      BaseThread.start running semInit actionOk semCreateOk
        = (⟨true, false, false⟩, semInit)) ∧
    (running = false →
      (BaseThread.start running semInit actionOk semCreateOk).1.actionInvoked
        = true ∧
      (BaseThread.start running semInit actionOk semCreateOk).1.signalInvoked
        = actionOk ∧
      (BaseThread.start running semInit actionOk semCreateOk).1.result
        = (actionOk && (SignalSemaphore.signal semInit semCreateOk).1) ∧
      (actionOk = false →
        (BaseThread.start running semInit actionOk semCreateOk).1.result
          = false)) := by
  unfold BaseThread.start SignalSemaphore.signal
  cases running <;> cases actionOk <;> cases semInit <;> cases semCreateOk <;>
    simp

/-- **C10** — an uninitialized worker reports itself suspended without
querying the OS thread; an initialized one queries the OS and returns true
exactly when the reported state is `TX_SUSPENDED` or `TX_SEMAPHORE_SUSP`,
returning false when the state query fails. -/
theorem C10_isSuspended_contract (initialized queryOk : Bool)
    (state : TxThreadState) :
    (initialized = false →
      BaseThread.isSuspended initialized queryOk state = (true, false)) ∧
    (initialized = true →
      (BaseThread.isSuspended initialized queryOk state).2 = true ∧
      (queryOk = true →
        ((BaseThread.isSuspended initialized queryOk state).1 = true ↔
          (state = TxThreadState.suspended ∨
            state = TxThreadState.semaphoreSusp))) ∧
      (queryOk = false →
        (BaseThread.isSuspended initialized queryOk state).1 = false)) := by
  unfold BaseThread.isSuspended
  cases initialized <;> cases queryOk <;> simp

/-- On an already-initialized saver, `EnsureInitialized` succeeds and is the
identity. -/
theorem Saver.saver_ensureInitialized_id {ε : Type} [DecidableEq ε]
    {sv : Saver ε} (env : OsEnv) (h : sv.initialized = true) :
    sv.ensureInitialized env = (true, sv) := by
  unfold Saver.ensureInitialized
  simp [h]

/-- **C5** — edge-triggered status signalling: a permitted caller invoking a
status setter twice in a row with the same target status `s` (here the
shared body of the `SetError` / `SetFlag` family, starting from a stored
status different from `s`): the first call writes the table and raises the
"new activity" notification; the second finds the stored status already
equal to `s`, leaves the whole state unchanged, does not signal, and
returns true — across the two calls the notification is signalled exactly
once. -/
theorem C5_setStatus_edge_triggered {ε : Type} [DecidableEq ε]
    (env1 env2 : OsEnv) (s : SStatus) (e : ε) (sv : Saver ε)
    (hinit : sv.initialized = true)
    (hperm1 : sv.dataSetterOwnerThread = none ∨
      sv.dataSetterOwnerThread = some env1.caller)
    (hperm2 : sv.dataSetterOwnerThread = none ∨
      sv.dataSetterOwnerThread = some env2.caller)
    (hsig : env1.setEventFlagsOk = true)
    (hne : sv.table e ≠ s) :
    (Saver.setStatusTo env1 s e sv).1 = true ∧
    (Saver.setStatusTo env1 s e sv).2.table e = s ∧
    (Saver.setStatusTo env1 s e sv).2.dataAvailableFlag = true ∧
    (Saver.setStatusTo env1 s e sv).2.signalCount = sv.signalCount + 1 ∧
    (Saver.setStatusTo env2 s e (Saver.setStatusTo env1 s e sv).2).1
      = true ∧
    (Saver.setStatusTo env2 s e (Saver.setStatusTo env1 s e sv).2).2
      = (Saver.setStatusTo env1 s e sv).2 ∧
    (Saver.setStatusTo env2 s e (Saver.setStatusTo env1 s e sv).2).2.signalCount
      = sv.signalCount + 1 := by
  unfold Saver.setStatusTo Saver.IsStatus Saver.writeStatus
    Saver.setAvailableFlag
  rw [Saver.saver_ensureInitialized_id env1 hinit]
  simp [Saver.saver_ensureInitialized_id, hinit, hperm1, hperm2, hsig,
    hne]

namespace Channel

variable {α : Type}

/-- Lazy initialization keeps the setter owner. -/
theorem ensureInitialized_setter (env : OsEnv) (ch : Channel α) :
    (ch.ensureInitialized env).2.dataSetterOwnerThread
      = ch.dataSetterOwnerThread :=
  (ensureInitialized_preserves env ch).2.2.2.1

/-- Lazy initialization keeps the getter owner. -/
theorem ensureInitialized_getter (env : OsEnv) (ch : Channel α) :
    (ch.ensureInitialized env).2.dataGetterOwnerThread
      = ch.dataGetterOwnerThread :=
  (ensureInitialized_preserves env ch).2.2.2.2

/-- `SetData` never touches the two owner identities. -/
theorem setData_owners (env : OsEnv) (v : α) (ch : Channel α) :
    (SetData env v ch).ch.dataSetterOwnerThread = ch.dataSetterOwnerThread ∧
    (SetData env v ch).ch.dataGetterOwnerThread = ch.dataGetterOwnerThread := by
  unfold SetData setAvailableFlag
  split_ifs <;>
      simp [ensureInitialized_setter, ensureInitialized_getter] <;>
    split_ifs <;>
      simp [ensureInitialized_setter, ensureInitialized_getter]

/-- The snapshot read leaves the channel in its post-initialization state. -/
theorem getRecentData_ch (env : OsEnv) (ch : Channel α) :
    (GetRecentData env ch).ch = (ch.ensureInitialized env).2 := by
  unfold GetRecentData
  dsimp only
  split_ifs <;> rfl

/-- The snapshot read with timestamp leaves the channel in its
post-initialization state. -/
theorem getRecentDataWT_ch (env : OsEnv) (ch : Channel α) :
    (GetRecentDataWT env ch).ch = (ch.ensureInitialized env).2 := by
  unfold GetRecentDataWT
  dsimp only
  split_ifs <;> rfl

/-- `GetNewData` never touches the two owner identities. -/
theorem getNewData_owners (env : OsEnv) (ch : Channel α) :
    (GetNewData env ch).ch.dataSetterOwnerThread = ch.dataSetterOwnerThread ∧
    (GetNewData env ch).ch.dataGetterOwnerThread
      = ch.dataGetterOwnerThread := by
  unfold GetNewData takeAvailableFlag
  dsimp only
  split_ifs <;>
    simp [getRecentData_ch, ensureInitialized_setter, ensureInitialized_getter]

/-- `GetNewDataWT` never touches the two owner identities. -/
theorem getNewDataWT_owners (env : OsEnv) (ch : Channel α) :
    (GetNewDataWT env ch).ch.dataSetterOwnerThread
      = ch.dataSetterOwnerThread ∧
    (GetNewDataWT env ch).ch.dataGetterOwnerThread
      = ch.dataGetterOwnerThread := by
  unfold GetNewDataWT takeAvailableFlag
  dsimp only
  split_ifs <;>
    simp [getRecentDataWT_ch, ensureInitialized_setter,
      ensureInitialized_getter]

set_option linter.unnecessarySeqFocus false in
/-- The conditional snapshot read leaves the channel in its
post-initialization state. -/
theorem getRecentDataIfNewerThanWT_ch (env : OsEnv) (t : Nat)
    (ch : Channel α) :
    (GetRecentDataIfNewerThanWT env t ch).ch = (ch.ensureInitialized env).2 := by
  unfold GetRecentDataIfNewerThanWT
  dsimp only
  rw [← getRecentDataWT_ch env ch]
  rcases h1 : (GetRecentDataWT env ch).ok <;>
    rcases h2 : (GetRecentDataWT env ch).out <;>
      rcases h3 : (GetRecentDataWT env ch).outTs <;>
        simp [h1, h2, h3] <;> split_ifs <;> rfl

/-- `IsRecentDataNewerThanMsec` leaves the channel in its
post-initialization state. -/
theorem isRecentDataNewerThanMsec_ch (env : OsEnv) (t : Nat)
    (ch : Channel α) :
    (IsRecentDataNewerThanMsec env t ch).2 = (ch.ensureInitialized env).2 := by
  unfold IsRecentDataNewerThanMsec
  dsimp only
  split_ifs <;> rfl

end Channel

namespace Saver

variable {ε : Type} [DecidableEq ε]

omit [DecidableEq ε] in
/-- Saver lazy initialization keeps owners, table, notification bit and
signal counter. -/
theorem saver_ensureInitialized_preserves (env : OsEnv) (sv : Saver ε) :
    (sv.ensureInitialized env).2.dataSetterOwnerThread
      = sv.dataSetterOwnerThread ∧
    (sv.ensureInitialized env).2.dataGetterOwnerThread
      = sv.dataGetterOwnerThread ∧
    (sv.ensureInitialized env).2.table = sv.table ∧
    (sv.ensureInitialized env).2.dataAvailableFlag = sv.dataAvailableFlag ∧
    (sv.ensureInitialized env).2.signalCount = sv.signalCount := by
  unfold ensureInitialized Initialize
  dsimp only
  split_ifs <;> simp

end Saver

/-- **C9** — ownership designation is permanent: the owner setters reject a
null thread pointer, returning false with the state unchanged, and no
modelled public operation of the value channel or of the status saver ever
turns a designated (non-null) owner back into the un-owned state. -/
theorem C9_owner_designation_permanent {α ε : Type} [DecidableEq ε]
    (ch : Channel α) (sv : Saver ε) :
    Channel.SetSetterOwnerThreadTo none ch = (false, ch) ∧
    Channel.SetGettersOwnerThreadTo none ch = (false, ch) ∧
    Saver.SetSetterOwnerThreadTo none sv = (false, sv) ∧
    Saver.SetGettersOwnerThreadTo none sv = (false, sv) ∧
    (∀ op : ChannelOp α,
      (ch.dataSetterOwnerThread.isSome = true →
        (applyChannelOp op ch).dataSetterOwnerThread.isSome = true) ∧
      (ch.dataGetterOwnerThread.isSome = true →
        (applyChannelOp op ch).dataGetterOwnerThread.isSome = true)) ∧
    (∀ op : SaverOp ε,
      (sv.dataSetterOwnerThread.isSome = true →
        (applySaverOp op sv).dataSetterOwnerThread.isSome = true) ∧
      (sv.dataGetterOwnerThread.isSome = true →
        (applySaverOp op sv).dataGetterOwnerThread.isSome = true)) := by
  refine ⟨rfl, rfl, rfl, rfl, ?_, ?_⟩
  · intro op
    cases op with
    | setData env v =>
      exact ⟨fun h => by
          rw [applyChannelOp, (Channel.setData_owners env v ch).1]; exact h,
        fun h => by
          rw [applyChannelOp, (Channel.setData_owners env v ch).2]; exact h⟩
    | getNewData env =>
      exact ⟨fun h => by
          rw [applyChannelOp, (Channel.getNewData_owners env ch).1]; exact h,
        fun h => by
          rw [applyChannelOp, (Channel.getNewData_owners env ch).2]; exact h⟩
    | getNewDataWT env =>
      exact ⟨fun h => by
          rw [applyChannelOp, (Channel.getNewDataWT_owners env ch).1]; exact h,
        fun h => by
          rw [applyChannelOp, (Channel.getNewDataWT_owners env ch).2]; exact h⟩
    | getRecentData env =>
      exact ⟨fun h => by
          rw [applyChannelOp, Channel.getRecentData_ch,
            Channel.ensureInitialized_setter]; exact h,
        fun h => by
          rw [applyChannelOp, Channel.getRecentData_ch,
            Channel.ensureInitialized_getter]; exact h⟩
    | getRecentDataWT env =>
      exact ⟨fun h => by
          rw [applyChannelOp, Channel.getRecentDataWT_ch,
            Channel.ensureInitialized_setter]; exact h,
        fun h => by
          rw [applyChannelOp, Channel.getRecentDataWT_ch,
            Channel.ensureInitialized_getter]; exact h⟩
    | getRecentDataIfNewerThan env t =>
      exact ⟨fun h => by
          rw [applyChannelOp]
          unfold Channel.GetRecentDataIfNewerThan
          dsimp only
          rw [Channel.getRecentDataIfNewerThanWT_ch,
            Channel.ensureInitialized_setter]
          exact h,
        fun h => by
          rw [applyChannelOp]
          unfold Channel.GetRecentDataIfNewerThan
          dsimp only
          rw [Channel.getRecentDataIfNewerThanWT_ch,
            Channel.ensureInitialized_getter]
          exact h⟩
    | getRecentDataIfNewerThanWT env t =>
      exact ⟨fun h => by
          rw [applyChannelOp, Channel.getRecentDataIfNewerThanWT_ch,
            Channel.ensureInitialized_setter]; exact h,
        fun h => by
          rw [applyChannelOp, Channel.getRecentDataIfNewerThanWT_ch,
            Channel.ensureInitialized_getter]; exact h⟩
    | isRecentDataNewerThanMsec env t =>
      exact ⟨fun h => by
          rw [applyChannelOp, Channel.isRecentDataNewerThanMsec_ch,
            Channel.ensureInitialized_setter]; exact h,
        fun h => by
          rw [applyChannelOp, Channel.isRecentDataNewerThanMsec_ch,
            Channel.ensureInitialized_getter]; exact h⟩
    | setGettersOwnerThreadTo arg =>
      constructor <;> intro h <;> cases arg <;>
        simp_all [applyChannelOp, Channel.SetGettersOwnerThreadTo]
    | setSetterOwnerThreadTo arg =>
      constructor <;> intro h <;> cases arg <;>
        simp_all [applyChannelOp, Channel.SetSetterOwnerThreadTo]
    | clearNewDataEvent =>
      constructor <;> intro h <;>
        simp_all [applyChannelOp, Channel.ClearNewDataEvent]
  · intro op
    cases op with
    | setStatus env target e =>
      constructor <;> intro h <;>
        · rw [applySaverOp]
          unfold Saver.setStatusTo Saver.setAvailableFlag Saver.writeStatus
          dsimp only
          obtain ⟨hs1, hg1, -, -, -⟩ :=
            Saver.saver_ensureInitialized_preserves env sv
          split_ifs <;> simp [hs1, hg1, h]
    | setAllUnknown env =>
      constructor <;> intro h <;>
        · rw [applySaverOp]
          unfold Saver.SetAllUnknown Saver.setAvailableFlag
          dsimp only
          obtain ⟨hs1, hg1, -, -, -⟩ :=
            Saver.saver_ensureInitialized_preserves env sv
          split_ifs <;> simp [hs1, hg1, h]
    | isErrorSet env e =>
      constructor <;> intro h <;>
        · rw [applySaverOp]
          unfold Saver.IsErrorSet
          dsimp only
          obtain ⟨hs1, hg1, -, -, -⟩ :=
            Saver.saver_ensureInitialized_preserves env sv
          split_ifs <;> simp [hs1, hg1, h]
    | getNewActivity =>
      constructor <;> intro h <;>
        · rw [applySaverOp]
          unfold Saver.GetNewActivity
          split_ifs <;> simp [h]
    | setGettersOwnerThreadTo arg =>
      constructor <;> intro h <;> cases arg <;>
        simp_all [applySaverOp, Saver.SetGettersOwnerThreadTo]
    | setSetterOwnerThreadTo arg =>
      constructor <;> intro h <;> cases arg <;>
        simp_all [applySaverOp, Saver.SetSetterOwnerThreadTo]
    | clearNewDataEvent =>
      constructor <;> intro h <;>
        simp_all [applySaverOp, Saver.ClearNewDataEvent]

namespace Channel

variable {α : Type}

/-- Splitting a `SetData` sequence. -/
theorem runSetSeq_append (l r : List (OsEnv × α)) (ch : Channel α) :
    runSetSeq (l ++ r) ch = runSetSeq r (runSetSeq l ch) := by
  induction l generalizing ch with
  | nil => rfl
  | cons q l ih =>
    cases q
    simp [runSetSeq, ih]

/-- Success of a split `SetData` sequence. -/
theorem allSetsSucceed_append (l r : List (OsEnv × α)) (ch : Channel α) :
    allSetsSucceed (l ++ r) ch
      = (allSetsSucceed l ch && allSetsSucceed r (runSetSeq l ch)) := by
  induction l generalizing ch with
  | nil => simp [allSetsSucceed, runSetSeq]
  | cons q l ih =>
    cases q
    simp [allSetsSucceed, runSetSeq, ih, Bool.and_assoc]

/-- A `SetData` sequence never touches the owner identities. -/
theorem runSetSeq_owners (calls : List (OsEnv × α)) (ch : Channel α) :
    (runSetSeq calls ch).dataSetterOwnerThread = ch.dataSetterOwnerThread ∧
    (runSetSeq calls ch).dataGetterOwnerThread = ch.dataGetterOwnerThread := by
  induction calls generalizing ch with
  | nil => exact ⟨rfl, rfl⟩
  | cons q l ih =>
    rcases q with ⟨env, v⟩
    obtain ⟨h1, h2⟩ := setData_owners env v ch
    obtain ⟨i1, i2⟩ := ih (SetData env v ch).ch
    exact ⟨i1.trans h1, i2.trans h2⟩

/-- With a monotone clock, the stored timestamps observed along an
all-successful `SetData` sequence form a non-decreasing chain extending
the timestamp already stored. -/
theorem tsTrace_chain (calls : List (OsEnv × α)) (ch : Channel α)
    (hsucc : allSetsSucceed calls ch = true)
    (hchain : List.Chain' (· ≤ ·)
      (ch.dataTimestamp :: calls.map (fun q => q.1.now))) :
    List.Chain' (· ≤ ·) (ch.dataTimestamp :: tsTrace calls ch) := by
  induction calls generalizing ch with
  | nil => simp [tsTrace]
  | cons q l ih =>
    rcases q with ⟨env, v⟩
    simp only [allSetsSucceed, Bool.and_eq_true] at hsucc
    obtain ⟨hok, hrest⟩ := hsucc
    obtain ⟨-, -, -, hts, -, -⟩ := setData_ok_state hok
    simp only [List.map_cons, List.chain'_cons] at hchain
    simp only [tsTrace, List.chain'_cons]
    refine ⟨by rw [hts]; exact hchain.1, ?_⟩
    exact ih (SetData env v ch).ch hrest (by rw [hts]; exact hchain.2)

end Channel

/-- **C8** — last-write-wins round trip with monotone timestamps: for a
finite sequence of successful `SetData` calls (final call `p`, issued with
non-decreasing monotonic-clock readings extending the stored timestamp), a
subsequent `GetRecentData` by a permitted caller returns true with exactly
the most recently set value, the stored timestamp afterwards is the final
clock reading, and the stored timestamps observed across the sequence are
non-decreasing. -/
theorem C8_last_write_wins {α : Type} (pre : List (OsEnv × α))
    (p : OsEnv × α) (envG : OsEnv) (ch : Channel α)
    (hsucc : Channel.allSetsSucceed (pre ++ [p]) ch = true)
    (hchain : List.Chain' (· ≤ ·)
      (ch.dataTimestamp :: (pre ++ [p]).map (fun q => q.1.now)))
    (hperm : ch.dataGetterOwnerThread = none ∨
      ch.dataGetterOwnerThread = some envG.caller) :
    (Channel.GetRecentData envG (Channel.runSetSeq (pre ++ [p]) ch)).ok
      = true ∧
    (Channel.GetRecentData envG (Channel.runSetSeq (pre ++ [p]) ch)).out
      = some p.2 ∧
    (Channel.runSetSeq (pre ++ [p]) ch).dataTimestamp = p.1.now ∧
    List.Chain' (· ≤ ·)
      (ch.dataTimestamp :: Channel.tsTrace (pre ++ [p]) ch) := by
  rcases p with ⟨env, v⟩
  rw [Channel.allSetsSucceed_append] at hsucc
  simp only [Channel.allSetsSucceed, Bool.and_eq_true, Bool.and_true] at hsucc
  obtain ⟨hpre, hok⟩ := hsucc
  have hrun : Channel.runSetSeq (pre ++ [(env, v)]) ch
      = (Channel.SetData env v (Channel.runSetSeq pre ch)).ch := by
    rw [Channel.runSetSeq_append]
    rfl
  obtain ⟨hini, -, hdata, hts, hgo, -⟩ := setData_ok_state hok
  obtain ⟨-, hgpre⟩ := Channel.runSetSeq_owners pre ch
  have hown : (Channel.SetData env v (Channel.runSetSeq pre ch)).ch.dataGetterOwnerThread
      = ch.dataGetterOwnerThread := hgo.trans hgpre
  refine ⟨?_, ?_, ?_, ?_⟩
  · rw [hrun]
    unfold Channel.GetRecentData
    rw [Channel.ensureInitialized_of_initialized envG hini]
    simp [hown, hperm]
  · rw [hrun]
    unfold Channel.GetRecentData
    rw [Channel.ensureInitialized_of_initialized envG hini]
    simp [hown, hperm, hdata]
  · rw [hrun, hts]
  · refine Channel.tsTrace_chain _ ch ?_ hchain
    rw [Channel.allSetsSucceed_append]
    simp [Channel.allSetsSucceed, hpre, hok]

/-! ## Lemmas on the worker step loop -/

/-- Unfolding the first check out of an `any` over an initial range. -/
theorem range_any_succ (k : Nat) (f : Nat → Bool) :
    (List.range (k + 1)).any f
      = (f 0 || (List.range k).any (fun j => f (j + 1))) := by
  rw [List.range_succ_eq_map]
  simp only [List.any_cons, List.any_map]
  rfl

/-- Every event the step loop emits is a `Step()` invocation. -/
theorem stepLoop_events (hooks : ThreadHooks) (fuel : Nat)
    (envStop : Nat → Bool) (fl fl' : WorkerFlags) (evs : List ThreadEv)
    (h : stepLoop hooks fuel envStop fl = some (evs, fl')) :
    evs = List.replicate evs.length ThreadEv.evStep := by
  induction fuel generalizing envStop fl evs fl' with
  | zero => simp [stepLoop] at h
  | succ n ih =>
    simp only [stepLoop] at h
    by_cases hstop : (if envStop 0 then { fl with stopThreadRequested := true }
        else fl).stopThreadRequested = true
    · rw [if_pos hstop] at h
      simp only [Option.some.injEq, Prod.mk.injEq] at h
      obtain ⟨h1, -⟩ := h
      simp [← h1]
    · rw [if_neg hstop] at h
      rcases hrec : stepLoop hooks n (fun k => envStop (k + 1))
          { hooks.stepEffect (if envStop 0 then
              { fl with stopThreadRequested := true } else fl) with
            threadStepInDelay := false } with - | ⟨evs', fl''⟩
      · rw [hrec] at h
        simp at h
      · rw [hrec] at h
        simp only [Option.some.injEq, Prod.mk.injEq] at h
        obtain ⟨hevs, -⟩ := h
        have := ih _ _ _ _ hrec
        rw [← hevs, this]
        simp [List.replicate_succ]

/-- With a `Step()` hook that does not touch the stop-request flag, the
loop performs at most `k` steps once a stop has been visible at some
loop-head check `j ≤ k`. -/
theorem stepLoop_stop_bound (hooks : ThreadHooks)
    (hpres : ∀ g, (hooks.stepEffect g).stopThreadRequested
      = g.stopThreadRequested)
    (fuel : Nat) (envStop : Nat → Bool) (fl fl' : WorkerFlags)
    (evs : List ThreadEv)
    (h : stepLoop hooks fuel envStop fl = some (evs, fl')) :
    ∀ k, stopSeenBy fl.stopThreadRequested envStop k = true →
      evs.length ≤ k := by
  induction fuel generalizing envStop fl evs fl' with
  | zero => simp [stepLoop] at h
  | succ n ih =>
    simp only [stepLoop] at h
    by_cases hstop : (if envStop 0 then { fl with stopThreadRequested := true }
        else fl).stopThreadRequested = true
    · rw [if_pos hstop] at h
      simp only [Option.some.injEq, Prod.mk.injEq] at h
      obtain ⟨h1, -⟩ := h
      intro k _
      simp [← h1]
    · rw [if_neg hstop] at h
      have henv0 : envStop 0 = false := by
        by_cases he : envStop 0 = true
        · rw [if_pos he] at hstop
          simp at hstop
        · simpa using he
      have hfl0 : fl.stopThreadRequested = false := by
        rw [if_neg (by simp [henv0])] at hstop
        simpa using hstop
      rcases hrec : stepLoop hooks n (fun k => envStop (k + 1))
          { hooks.stepEffect (if envStop 0 then
              { fl with stopThreadRequested := true } else fl) with
            threadStepInDelay := false } with - | ⟨evs', fl''⟩
      · rw [hrec] at h
        simp at h
      · rw [hrec] at h
        simp only [Option.some.injEq, Prod.mk.injEq] at h
        obtain ⟨hevs, -⟩ := h
        have hstop' : ({ hooks.stepEffect (if envStop 0 then
            { fl with stopThreadRequested := true } else fl) with
              threadStepInDelay := false }).stopThreadRequested = false := by
          simp only [henv0, Bool.false_eq_true, if_false]
          simp [hpres fl, hfl0]
        intro k hk
        cases k with
        | zero =>
          exfalso
          unfold stopSeenBy at hk
          simp [hfl0, henv0] at hk
        | succ k =>
          have hk' : stopSeenBy false (fun j => envStop (j + 1)) k = true := by
            unfold stopSeenBy at hk ⊢
            rw [range_any_succ] at hk
            simp [hfl0, henv0] at hk
            simpa using hk
          rw [← hstop'] at hk'
          have := ih _ _ _ _ hrec k hk'
          rw [← hevs]
          simpa [Nat.succ_le_succ_iff] using this

/-- **C1** — worker lifecycle invariant, over one full `ThreadEntry` cycle:
the emitted trace is the start-signal reception followed by the guarded
setup, the `Step()` invocations and the guarded cleanup, in that order;
`Setup()` runs exactly once unless the setup-complete flag was already true
at its check, `Cleanup()` runs exactly once unless the cleanup-complete
flag was already true at its check, each runs at most once per cycle, the
steps lie strictly between the start reception and the cleanup, a stop
request visible at loop-head check `k` bounds the number of `Step()`
invocations by `k` (for a `Step()` hook that does not touch the stop
flag), and at the end of the cycle the setup-complete flag is cleared so
the next cycle runs `Setup()` again. -/
theorem C1_worker_lifecycle (hooks : ThreadHooks) (envStop : Nat → Bool)
    (fuel : Nat) (fl fl' : WorkerFlags) (evs : List ThreadEv)
    (hrun : threadCycle hooks envStop fuel fl = some (evs, fl')) :
    (∃ evSteps fl3,
      stepLoop hooks fuel envStop (setupPhase hooks (cyclePrologue hooks fl)).2
        = some (evSteps, fl3) ∧
      evSteps = List.replicate evSteps.length ThreadEv.evStep ∧
      evs = ThreadEv.evStart ::
        ((setupPhase hooks (cyclePrologue hooks fl)).1 ++ evSteps
          ++ (cleanupPhase hooks fl3).1) ∧
      evs.count ThreadEv.evStep = evSteps.length ∧
      evs.count ThreadEv.evCleanup
        = (if fl3.cleanupComplete then 0 else 1) ∧
      ((∀ g, (hooks.stepEffect g).stopThreadRequested
          = g.stopThreadRequested) →
        ∀ k, stopSeenBy
            (setupPhase hooks (cyclePrologue hooks fl)).2.stopThreadRequested
            envStop k = true → evSteps.length ≤ k)) ∧
    evs.count ThreadEv.evSetup
      = (if (cyclePrologue hooks fl).setupComplete then 0 else 1) ∧
    evs.count ThreadEv.evSetup ≤ 1 ∧
    evs.count ThreadEv.evCleanup ≤ 1 ∧
    evs.count ThreadEv.evStart = 1 ∧
    fl'.setupComplete = false := by
  unfold threadCycle at hrun
  dsimp only at hrun
  rcases hrec : stepLoop hooks fuel envStop
      (setupPhase hooks (cyclePrologue hooks fl)).2 with - | ⟨evSteps, fl3⟩
  · rw [hrec] at hrun
    simp at hrun
  · rw [hrec] at hrun
    simp only [Option.some.injEq, Prod.mk.injEq] at hrun
    obtain ⟨hevs, hfl'⟩ := hrun
    have hrep := stepLoop_events hooks fuel envStop _ fl3 evSteps hrec
    have hcountSetup :
        (setupPhase hooks (cyclePrologue hooks fl)).1.count ThreadEv.evSetup
          = (if (cyclePrologue hooks fl).setupComplete then 0 else 1) := by
      unfold setupPhase
      by_cases hsc : (cyclePrologue hooks fl).setupComplete <;> simp [hsc]
    have hcountSetup' :
        ∀ e, e ≠ ThreadEv.evSetup →
          (setupPhase hooks (cyclePrologue hooks fl)).1.count e = 0 := by
      intro e he
      unfold setupPhase
      by_cases hsc : (cyclePrologue hooks fl).setupComplete <;>
        simp [hsc, List.count_cons, he]
    have hcountClean :
        (cleanupPhase hooks fl3).1.count ThreadEv.evCleanup
          = (if fl3.cleanupComplete then 0 else 1) := by
      unfold cleanupPhase
      by_cases hcc : fl3.cleanupComplete <;> simp [hcc]
    have hcountClean' :
        ∀ e, e ≠ ThreadEv.evCleanup →
          (cleanupPhase hooks fl3).1.count e = 0 := by
      intro e he
      unfold cleanupPhase
      by_cases hcc : fl3.cleanupComplete <;>
        simp [hcc, List.count_cons, he]
    refine ⟨⟨evSteps, fl3, rfl, hrep, hevs.symm, ?_, ?_, ?_⟩,
      ?_, ?_, ?_, ?_, ?_⟩
    · rw [← hevs, hrep]
      simp [List.count_append, List.count_cons,
        hcountSetup' ThreadEv.evStep (by simp),
        hcountClean' ThreadEv.evStep (by simp), List.count_replicate]
    · rw [← hevs, hrep]
      simp [List.count_append, List.count_cons, hcountClean,
        hcountSetup' ThreadEv.evCleanup (by simp),
        List.count_replicate]
    · intro hpres k hk
      have := stepLoop_stop_bound hooks hpres fuel envStop _ fl3 evSteps hrec
        k hk
      exact this
    · rw [← hevs, hrep]
      simp [List.count_append, List.count_cons, hcountSetup,
        hcountClean' ThreadEv.evSetup (by simp), List.count_replicate]
    · rw [← hevs, hrep]
      simp only [List.count_cons, List.count_append]
      rw [hcountSetup, hcountClean' ThreadEv.evSetup (by simp)]
      simp [List.count_replicate]
      split_ifs <;> simp
    · rw [← hevs, hrep]
      simp only [List.count_cons, List.count_append]
      rw [hcountClean, hcountSetup' ThreadEv.evCleanup (by simp)]
      simp [List.count_replicate]
      split_ifs <;> simp
    · rw [← hevs, hrep]
      simp [List.count_append, List.count_cons,
        hcountSetup' ThreadEv.evStart (by simp),
        hcountClean' ThreadEv.evStart (by simp), List.count_replicate]
    · rw [← hfl']

/-! ## Concrete instances used by the witnesses -/

/-- An OS environment where every primitive succeeds, the clock reads 42 ms
and the calling thread is number 7. -/
def envW : OsEnv := ⟨true, true, true, true, 42, 7⟩

/-- Like `envW` but at a later clock reading (50 ms). -/
def envW2 : OsEnv := ⟨true, true, true, true, 50, 7⟩

/-- A freshly constructed, uninitialized `Nat` channel. -/
def chW : Channel Nat := ⟨false, false, false, false, none, none, 0, 0⟩

/-- An initialized `Nat` channel with no owners, value 3 stored at 10 ms. -/
def chI : Channel Nat := ⟨true, true, true, false, none, none, 3, 10⟩

/-- An initialized `Nat` channel whose owners are thread 9, with a pending
notification. -/
def chO9 : Channel Nat := ⟨true, true, true, true, some 9, some 9, 3, 10⟩

/-- An initialized un-owned saver over `Bool` with an all-Unknown table. -/
def svW : Saver Bool :=
  ⟨true, true, false, 0, none, none, fun _ => SStatus.unknown⟩

/-- An initialized saver over `Bool` owned by thread 9. -/
def svO9 : Saver Bool :=
  ⟨true, true, false, 0, some 9, some 9, fun _ => SStatus.unknown⟩

/-- Initial worker flags, all clear. -/
def flW : WorkerFlags := ⟨false, false, false, false, false⟩

/-- A stop request arriving at the loop-head check number 2. -/
def envStopW : Nat → Bool := fun k => decide (2 ≤ k)

/-- The trace the cycle emits under `envStopW`. -/
def evsW : List ThreadEv :=
  [ThreadEv.evStart, ThreadEv.evSetup, ThreadEv.evStep, ThreadEv.evStep,
    ThreadEv.evCleanup]

/-- The worker flags at the end of that cycle. -/
def flW' : WorkerFlags := ⟨true, false, false, true, true⟩

/-! ## Witnesses -/

/-- Witness for C1 at a concrete cycle: two steps before the stop arriving
at check 2, setup run exactly once. -/
theorem C1_worker_lifecycle_witness :
    evsW.count ThreadEv.evSetup = 1 ∧ evsW.count ThreadEv.evStep = 2 ∧
    flW'.setupComplete = false := by
  have h := C1_worker_lifecycle idHooks envStopW 10 flW flW' evsW (by decide)
  obtain ⟨⟨evSteps, fl3, -, -, -, hstep, -, -⟩, hsetup, -, -, -, hsc⟩ := h
  refine ⟨?_, ?_, hsc⟩
  · rw [hsetup]
    decide
  · have hlen : evSteps.length = 2 := by
      rw [← hstep]
      decide
    rw [hstep, hlen]

/-- Witness for C2 on a fresh channel with an all-success environment. -/
theorem C2_setData_contract_witness :
    (Channel.SetData envW 5 chW).ch.data = 5 ∧
    (Channel.SetData envW 5 chW).ch.dataTimestamp = 42 ∧
    (Channel.SetData envW 5 chW).ch.dataAvailableFlag = true :=
  (C2_setData_contract envW 5 chW).2.1 (by decide)

/-- Witness for C3: set 5 once, read it back, second read fails. -/
theorem C3_getNewData_pulse_witness :
    (Channel.GetNewData envW (Channel.SetData envW 5 chW).ch).ok = true ∧
    (Channel.GetNewData envW (Channel.SetData envW 5 chW).ch).out = some 5 ∧
    (Channel.GetNewData envW
      (Channel.GetNewData envW (Channel.SetData envW 5 chW).ch).ch).ok
        = false := by
  have h := C3_getNewData_pulse envW envW envW 5 chW (by decide) (by decide)
    (by decide)
  exact ⟨h.1, h.2.1, h.2.2.2.1⟩

/-- Witness for C4 at the equality boundary `t = storedTimestamp = 10`. -/
theorem C4_freshness_strict_boundary_witness :
    (Channel.GetRecentDataIfNewerThanWT envW 10 chI).ok = false ∧
    (Channel.GetRecentDataIfNewerThanWT envW 9 chI).ok = true := by
  refine ⟨?_, ?_⟩
  · exact ((C4_freshness_strict_boundary envW 10 chI (by decide)
      (by decide)).2.2.1 (by decide)).1
  · exact (C4_freshness_strict_boundary envW 9 chI (by decide)
      (by decide)).1.mpr (by decide)

/-- Witness for C5: setting the same status twice on an un-owned saver. -/
theorem C5_setStatus_edge_triggered_witness :
    (Saver.setStatusTo envW SStatus.set true svW).1 = true ∧
    (Saver.setStatusTo envW SStatus.set true
      (Saver.setStatusTo envW SStatus.set true svW).2).2.signalCount
        = svW.signalCount + 1 := by
  have h := C5_setStatus_edge_triggered envW envW SStatus.set true svW
    rfl (Or.inl rfl) (Or.inl rfl) rfl (by simp [svW, Saver.IsStatus])
  exact ⟨h.1, h.2.2.2.2.2.2⟩

/-- Witness for C6 in the already-running case. -/
theorem C6_start_semantics_witness :
    BaseThread.start true false true true = (⟨true, false, false⟩, false) :=
  (C6_start_semantics true false true true).1 rfl

/-- Witness for C7: thread 7 reads a channel owned by thread 9. -/
theorem C7_nonowner_read_rejected_witness :
    (Channel.GetNewData envW chO9).ok = false ∧
    (Channel.GetNewData envW chO9).waited = false ∧
    (Channel.GetNewData envW chO9).ch.dataAvailableFlag
      = chO9.dataAvailableFlag := by
  have h := C7_nonowner_read_rejected envW chO9 9 (by decide) (by decide)
  exact ⟨h.1.1, h.1.2.2.1, h.1.2.2.2.2.2⟩

/-- Witness for C8: the two-call sequence 1 then 2 round-trips to 2. -/
theorem C8_last_write_wins_witness :
    (Channel.GetRecentData envW
      (Channel.runSetSeq ([(envW, 1)] ++ [(envW2, 2)]) chW)).out = some 2 :=
  (C8_last_write_wins [(envW, 1)] (envW2, 2) envW chW (by decide)
    (by norm_num [chW, envW, envW2, List.chain'_cons, List.chain'_singleton])
    (by decide)).2.1

/-- Witness for C9: a null owner argument is rejected and a bound owner
survives a `SetData`. -/
theorem C9_owner_designation_permanent_witness :
    Channel.SetSetterOwnerThreadTo none chO9 = (false, chO9) ∧
    (applyChannelOp (ChannelOp.setData envW 5) chO9).dataSetterOwnerThread.isSome
      = true := by
  have h := C9_owner_designation_permanent chO9 svO9
  exact ⟨h.1, (h.2.2.2.2.1 (ChannelOp.setData envW 5)).1 (by decide)⟩

/-- Witness for C10 on an uninitialized worker. -/
theorem C10_isSuspended_contract_witness :
    BaseThread.isSuspended false true TxThreadState.other = (true, false) :=
  (C10_isSuspended_contract false true TxThreadState.other).1 rfl

end HfUtils
